import Mathlib

/-!
# Verification of the Domra Tech glossary viewer (`assets/js/app.js`)

Shallow embedding of the browser-resident glossary application:
the search/filter pipeline (`filterWords`, `searchMatches`), the card
renderer (`createWordCard`, `escapeHtml`, `renderWords`), the loader
(`loadData`, `fetchWithTimeout`), and the export routine (`exportJSON`).

JavaScript strings are modelled as Lean `String`; `String.prototype.includes`
is substring occurrence; `toLowerCase` is a character-wise lowering.
Dynamically-typed JSON values (as they appear in the fetched documents and
in malformed optional term fields) are modelled by the inductive `JVal`,
and JavaScript evaluation that can throw a `TypeError` is modelled in the
`Except String` monad.
-/

namespace DomraTech

/-- Model of `String.prototype.includes`: the pattern occurs contiguously in `s`. -/
def jsIncludes (s pat : String) : Bool :=
  decide (pat.data <:+: s.data)

/-- Model of `String.prototype.toLowerCase`: character-wise lowering. -/
def jsToLower (s : String) : String :=
  ⟨s.data.map Char.toLower⟩

/-- The character `'` (written via its code point to keep source plain). -/
def quoteChar : Char := Char.ofNat 39

/-- The `examples` sub-object of a term: `{ english, khmer }`, both optional. -/
structure Examples where
  english : Option String
  khmer : Option String
  deriving DecidableEq, Repr

/-- A well-formed glossary term as stored in `data/lexicon.json` and held in
`lexiconData`.  Mandatory fields `english`, `khmer`, `category` are strings;
the optional fields are `Option`-valued (`none` = absent/null in the JSON). -/
structure Word where
  english : String
  khmer : String
  category : String
  description : Option String := none
  tags : Option (List String) := none
  examples : Option Examples := none
  dateAdded : Option String := none
  reference : Option String := none
  contributors : Option (List String) := none
  status : Option String := none
  deriving DecidableEq, Repr

/-- JavaScript truthiness of an optional string (`undefined`, `null` and `""`
are falsy; any other string is truthy). -/
def truthyOptStr : Option String → Bool
  | some s => s != ""
  | none => false

/-- Embedding of `searchMatches(word, searchTerm)` (app.js lines 320-333):
five field checks joined by `||`.  The `word.description && ...` guard is JS
truthiness, so a present-but-empty description is skipped exactly as in the
source; `examples.english?.` / `examples.khmer?.` only skip on nullish. -/
def searchMatches (word : Word) (searchTerm : String) : Bool :=
  let searchLower := jsToLower searchTerm
  jsIncludes (jsToLower word.english) searchLower ||
  jsIncludes word.khmer searchTerm ||
  (match word.description with
   | some d => (d != "") && jsIncludes (jsToLower d) searchLower
   | none => false) ||
  (match word.tags with
   | some tags => tags.any fun tag => jsIncludes (jsToLower tag) searchLower
   | none => false) ||
  (match word.examples with
   | some ex =>
       (match ex.english with
        | some e => jsIncludes (jsToLower e) searchLower
        | none => false) ||
       (match ex.khmer with
        | some k => jsIncludes k searchTerm
        | none => false)
   | none => false)

/-- Embedding of `filterWords()` (app.js lines 312-318), with the globals
`lexiconData`, `currentSearch`, `currentFilter` passed explicitly. -/
def filterWords (lexiconData : List Word) (currentSearch currentFilter : String) :
    List Word :=
  lexiconData.filter fun word =>
    (currentSearch == "" || searchMatches word currentSearch) &&
    (currentFilter == "all" || word.category == currentFilter)

/-! ## Spec-side predicates

The following definitions follow the specification's words (section 4.1),
not the source; the refinement theorems below compare them with the
source-derived `filterWords` / `searchMatches`. -/

/-- Spec: `state.selectedCategory == "all" OR term.categoryKey == state.selectedCategory`. -/
def categoryMatchesSpec (w : Word) (selectedCategory : String) : Bool :=
  selectedCategory == "all" || w.category == selectedCategory

/-- Spec check 1: case-insensitive substring match against the English name. -/
def engNameCheck (w : Word) (s : String) : Bool :=
  jsIncludes (jsToLower w.english) (jsToLower s)

/-- Spec check 2: case-sensitive substring match against the Khmer name. -/
def khmerNameCheck (w : Word) (s : String) : Bool :=
  jsIncludes w.khmer s

/-- Spec check 3: case-insensitive substring match against the description
when present. -/
def descriptionCheck (w : Word) (s : String) : Bool :=
  match w.description with
  | some d => jsIncludes (jsToLower d) (jsToLower s)
  | none => false

/-- Spec check 4: case-insensitive substring match against any tag when tags
are present. -/
def tagsCheck (w : Word) (s : String) : Bool :=
  match w.tags with
  | some tags => tags.any fun tag => jsIncludes (jsToLower tag) (jsToLower s)
  | none => false

/-- Spec check 5: case-insensitive match against the English example or
case-sensitive match against the Khmer example, when examples are present. -/
def examplesCheck (w : Word) (s : String) : Bool :=
  match w.examples with
  | some ex =>
      (match ex.english with
       | some e => jsIncludes (jsToLower e) (jsToLower s)
       | none => false) ||
      (match ex.khmer with
       | some k => jsIncludes k s
       | none => false)
  | none => false

/-- Spec text predicate: empty search matches everything, otherwise the
disjunction of the five field checks. -/
def textMatchesSpec (w : Word) (searchText : String) : Bool :=
  searchText == "" ||
    (engNameCheck w searchText || khmerNameCheck w searchText ||
     descriptionCheck w searchText || tagsCheck w searchText ||
     examplesCheck w searchText)

/-! ## Basic string lemmas -/

theorem jsToLower_data (s : String) :
    (jsToLower s).data = s.data.map Char.toLower := rfl

theorem jsToLower_ne_empty {s : String} (h : s ≠ "") : jsToLower s ≠ "" := by
  intro hc
  apply h
  have hdata : s.data.map Char.toLower = ([] : List Char) := congrArg String.data hc
  have hnil : s.data = [] := List.map_eq_nil_iff.mp hdata
  exact String.ext (hnil.trans rfl)

theorem jsIncludes_empty_left {p : String} (h : p ≠ "") :
    jsIncludes "" p = false := by
  unfold jsIncludes
  simp only [decide_eq_false_iff_not]
  intro hinf
  have hnil : p.data = [] := List.infix_nil.mp hinf
  exact h (String.ext (hnil.trans rfl))

/-! ## Equivalence of the source filter with the spec predicates -/

/-- The source's per-word search test (including the empty-search escape in
`filterWords`) coincides with the spec's text predicate.  The only textual
difference is the truthiness guard on `description`, which is immaterial
because an empty description cannot contain a non-empty lowered search. -/
theorem searchTest_eq_textMatchesSpec (w : Word) (s : String) :
    (s == "" || searchMatches w s) = textMatchesSpec w s := by
  by_cases hs : s = ""
  · subst hs; rfl
  · have hbeq : (s == "") = false := by simp [hs]
    rw [hbeq]
    unfold searchMatches textMatchesSpec engNameCheck khmerNameCheck
      descriptionCheck tagsCheck examplesCheck
    rw [hbeq]
    simp only [Bool.false_or]
    congr 1
    congr 1
    · -- the description disjunct
      cases hd : w.description with
      | none => rfl
      | some d =>
        by_cases hde : d = ""
        · subst hde
          have h1 : ("" != "") = false := by decide
          have h2 : jsIncludes (jsToLower "") (jsToLower s) = false := by
            have : jsToLower "" = "" := rfl
            rw [this]
            exact jsIncludes_empty_left (jsToLower_ne_empty hs)
          simp [h1, h2]
        · have h1 : (d != "") = true := by simp [hde]
          simp [h1]

/-- The source's per-word combined predicate equals the spec's conjunction
(spec order: category AND text; source order: search AND category). -/
theorem filterPred_eq_spec (w : Word) (s f : String) :
    ((s == "" || searchMatches w s) && (f == "all" || w.category == f)) =
      (categoryMatchesSpec w f && textMatchesSpec w s) := by
  rw [searchTest_eq_textMatchesSpec, Bool.and_comm]
  rfl

/-- `filterWords` is `List.filter` of the spec predicate. -/
theorem filterWords_eq_filter_spec (lex : List Word) (s f : String) :
    filterWords lex s f =
      lex.filter fun w => categoryMatchesSpec w f && textMatchesSpec w s := by
  unfold filterWords
  exact List.filter_congr fun w _ => filterPred_eq_spec w s f

/-! ## Category taxonomy and query state -/

/-- The localized display-name record of a category (`category.name`). -/
structure CatName where
  english : String
  deriving DecidableEq, Repr

/-- A category of `data/categories.json`: display name plus optional icon. -/
structure Category where
  icon : Option String := none
  name : CatName
  deriving DecidableEq, Repr

/-- The user's query state: trimmed search text and selected category key. -/
structure QueryState where
  searchText : String
  selectedCategory : String
  deriving DecidableEq, Repr

/-- The engine's contract `query(terms, categories, state)`: the source reads
the globals `currentSearch` / `currentFilter`; here they are passed via the
explicit `QueryState`.  The category mapping is accepted (per the contract)
but, like the source, the filter itself never consults it. -/
def query (terms : List Word) (_categories : List (String × Category))
    (state : QueryState) : List Word :=
  filterWords terms state.searchText state.selectedCategory

/-- First term of the spec's end-to-end scenario. -/
def cacheWord : Word := { english := "Cache", khmer := "ឃាស", category := "storage" }

/-- Second term of the spec's end-to-end scenario. -/
def schedulerWord : Word := { english := "Scheduler", khmer := "សឈេឌ", category := "compute" }

/-! ## Renderer (app.js lines 296-404, 455-467)

The card templates are embedded with their markup intact; insignificant
literal whitespace/indentation of the JS template strings is normalized,
which affects no claim (all claims concern the interpolated fields, the
branch taken, and the results-count text). -/

/-- One replacement step of `escapeHtml`'s regex map (app.js lines 455-467). -/
def escapeChar (c : Char) : String :=
  if c = '&' then "&amp;"
  else if c = '<' then "&lt;"
  else if c = '>' then "&gt;"
  else if c = '"' then "&quot;"
  else if c = quoteChar then "&#039;"
  else String.singleton c

/-- Embedding of `escapeHtml(text)`: replace every occurrence of the five
markup-significant characters by its entity. -/
def escapeHtml (text : String) : String :=
  text.data.foldr (fun c acc => escapeChar c ++ acc) ""

/-- JavaScript `v || dflt` on an optional string (`""` is falsy). -/
def jsOrStr (v : Option String) (dflt : String) : String :=
  match v with
  | some s => if s == "" then dflt else s
  | none => dflt

/-- `Array.prototype.join('')`. -/
def concatAll (l : List String) : String := l.foldr (· ++ ·) ""

/-- `categoriesData[word.category] || { icon: ..., name: { english: word.category } }`. -/
def categoryOf (categoriesData : List (String × Category)) (key : String) : Category :=
  match categoriesData.lookup key with
  | some c => c
  | none => { icon := some "📝", name := { english := key } }

/-- JS string interpolation of `category.icon` (prints `undefined` if absent). -/
def iconText : Option String → String
  | some i => i
  | none => "undefined"

/-- Embedding of `renderExamples(examples)` (app.js lines 373-383). -/
def renderExamples (examples : Option Examples) : String :=
  match examples with
  | none => ""
  | some ex =>
    if !truthyOptStr ex.english && !truthyOptStr ex.khmer then ""
    else
      "<div class=\"word-examples\"><div class=\"example-label\">Examples:</div>" ++
      (if truthyOptStr ex.english then
        "<div class=\"example-text\">\"" ++ escapeHtml (ex.english.getD "") ++ "\"</div>"
      else "") ++
      (if truthyOptStr ex.khmer then
        "<div class=\"example-text khmer\">\"" ++ escapeHtml (ex.khmer.getD "") ++ "\"</div>"
      else "") ++
      "</div>"

/-- Embedding of `renderTags(tags)` (app.js lines 385-393). -/
def renderTags (tags : Option (List String)) : String :=
  match tags with
  | none => ""
  | some l =>
    if l.length == 0 then ""
    else
      "<div class=\"word-tags\">" ++
      concatAll (l.map fun tag => "<span class=\"tag\">" ++ escapeHtml tag ++ "</span>") ++
      "</div>"

/-- Embedding of `renderReference(reference)` (app.js lines 395-404). -/
def renderReference (reference : Option String) : String :=
  match reference with
  | none => ""
  | some r =>
    if r == "" || r == "#" then ""
    else
      "<a href=\"" ++ escapeHtml r ++
      "\" class=\"word-reference\" target=\"_blank\" rel=\"noopener\"><span>📂</span>Reference</a>"

/-- Embedding of `createWordCard(word)` (app.js lines 352-371).  Note that
`word.dateAdded` and the category icon/display name are interpolated without
`escapeHtml`, exactly as in the source. -/
def createWordCard (categoriesData : List (String × Category)) (word : Word) : String :=
  "<div class=\"word-card slide-up\"><div class=\"word-english\">" ++
  escapeHtml word.english ++
  "</div><div class=\"word-khmer\">" ++
  escapeHtml word.khmer ++
  "</div><div class=\"word-category\">" ++
  iconText (categoryOf categoriesData word.category).icon ++ " " ++
  (categoryOf categoriesData word.category).name.english ++
  "</div><div class=\"word-description\">" ++
  escapeHtml (jsOrStr word.description "No description available") ++
  "</div>" ++
  renderExamples word.examples ++
  renderTags word.tags ++
  "<div class=\"word-footer\"><div class=\"word-date\">Added: " ++
  jsOrStr word.dateAdded "Unknown" ++
  "</div>" ++
  renderReference word.reference ++
  "</div></div>"

/-- The fixed markup of `renderNoResults()` (app.js lines 335-346). -/
def renderNoResults : String :=
  "<div class=\"no-results\"><h3>No terms found</h3><p>Try adjusting your search or filter criteria</p><button onclick=\"openContributeModal()\" class=\"btn btn-primary\" style=\"margin-top: 25px;\"><span>➕</span>Contribute New Terms</button></div>"

/-- Embedding of `renderWordCards(words)` (app.js lines 348-350). -/
def renderWordCards (categoriesData : List (String × Category)) (words : List Word) :
    String :=
  concatAll (words.map (createWordCard categoriesData))

/-- Which branch `renderWords` wrote into the word grid. -/
inductive GridContent where
  | noResults (html : String)
  | cards (html : String)
  deriving DecidableEq, Repr

/-- The observable output of one `renderWords()` recomputation: the
results-count label text and the grid content. -/
structure RenderOutput where
  resultsCount : String
  grid : GridContent
  deriving DecidableEq, Repr

/-- Embedding of `renderWords()` (app.js lines 296-310). -/
def renderWords (lexiconData : List Word) (categoriesData : List (String × Category))
    (currentSearch currentFilter : String) : RenderOutput :=
  let filteredWords := filterWords lexiconData currentSearch currentFilter
  { resultsCount := toString filteredWords.length ++ " terms found",
    grid :=
      if filteredWords.length == 0 then GridContent.noResults renderNoResults
      else GridContent.cards (renderWordCards categoriesData filteredWords) }

/-! ## Counting lemmas for markup-injection analysis -/

/-- Number of markup-opening `<` characters in a string. -/
def ltCount (s : String) : Nat := s.data.count '<'

theorem ltCount_append (a b : String) : ltCount (a ++ b) = ltCount a + ltCount b := by
  unfold ltCount
  rw [String.data_append, List.count_append]

theorem escapeChar_safe (c c' : Char) (h : c' ∈ (escapeChar c).data) :
    ¬(c' = '<' ∨ c' = '>' ∨ c' = '"' ∨ c' = quoteChar) := by
  unfold escapeChar at h
  split at h
  · exact (by decide :
      ∀ x ∈ ("&amp;" : String).data, ¬(x = '<' ∨ x = '>' ∨ x = '"' ∨ x = quoteChar)) c' h
  split at h
  · exact (by decide :
      ∀ x ∈ ("&lt;" : String).data, ¬(x = '<' ∨ x = '>' ∨ x = '"' ∨ x = quoteChar)) c' h
  split at h
  · exact (by decide :
      ∀ x ∈ ("&gt;" : String).data, ¬(x = '<' ∨ x = '>' ∨ x = '"' ∨ x = quoteChar)) c' h
  split at h
  · exact (by decide :
      ∀ x ∈ ("&quot;" : String).data, ¬(x = '<' ∨ x = '>' ∨ x = '"' ∨ x = quoteChar)) c' h
  split at h
  · exact (by decide :
      ∀ x ∈ ("&#039;" : String).data, ¬(x = '<' ∨ x = '>' ∨ x = '"' ∨ x = quoteChar)) c' h
  · rename_i h1 h2 h3 h4 h5
    have hc : c' = c := by
      have : (String.singleton c).data = [c] := rfl
      rw [this] at h
      simpa using h
    subst hc
    intro hcase
    rcases hcase with h' | h' | h' | h' <;> simp_all

theorem escapeHtml_safe (s : String) :
    ∀ c' ∈ (escapeHtml s).data, ¬(c' = '<' ∨ c' = '>' ∨ c' = '"' ∨ c' = quoteChar) := by
  cases s with
  | mk l =>
    induction l with
    | nil =>
      intro c' h
      have hnil : (escapeHtml ⟨([] : List Char)⟩).data = [] := rfl
      rw [hnil] at h
      exact absurd h (List.not_mem_nil c')
    | cons c cs ih =>
      intro c' h
      have hsplit : (escapeHtml ⟨c :: cs⟩).data =
          (escapeChar c).data ++ (escapeHtml ⟨cs⟩).data := by
        show (escapeChar c ++ escapeHtml ⟨cs⟩).data = _
        rw [String.data_append]
      rw [hsplit] at h
      rcases List.mem_append.mp h with h' | h'
      · exact escapeChar_safe c c' h'
      · exact ih c' h'

theorem ltCount_escapeHtml (s : String) : ltCount (escapeHtml s) = 0 := by
  unfold ltCount
  rw [List.count_eq_zero]
  intro hmem
  exact escapeHtml_safe s '<' hmem (Or.inl rfl)

/-- The shape (length) of the tags field, forgetting tag contents. -/
def tagsShape : Option (List String) → Option Nat := Option.map List.length

/-- The shape (truthiness of the two sub-fields) of the examples field. -/
def examplesShape : Option Examples → Option (Bool × Bool) :=
  Option.map fun ex => (truthyOptStr ex.english, truthyOptStr ex.khmer)

/-- The shape (skipped or rendered) of the reference field. -/
def refShape : Option String → Option Bool := Option.map fun r => r == "" || r == "#"

theorem concatAll_cons (a : String) (l : List String) :
    concatAll (a :: l) = a ++ concatAll l := rfl

theorem ltCount_tagSpans (l : List String) :
    ltCount (concatAll (l.map fun tag =>
      "<span class=\"tag\">" ++ escapeHtml tag ++ "</span>")) = 2 * l.length := by
  induction l with
  | nil => rfl
  | cons t ts ih =>
    rw [List.map_cons, concatAll_cons, ltCount_append, ih, ltCount_append,
      ltCount_append, ltCount_escapeHtml]
    have h1 : ltCount "<span class=\"tag\">" = 1 := by decide
    have h2 : ltCount "</span>" = 1 := by decide
    rw [h1, h2]
    simp [List.length_cons]
    ring

theorem ltCount_renderTags_congr {t t' : Option (List String)}
    (h : tagsShape t = tagsShape t') :
    ltCount (renderTags t) = ltCount (renderTags t') := by
  cases t with
  | none => cases t' with
    | none => rfl
    | some l' => simp [tagsShape] at h
  | some l =>
    cases t' with
    | none => simp [tagsShape] at h
    | some l' =>
      have hlen : l.length = l'.length := by simpa [tagsShape] using h
      simp only [renderTags]
      rw [hlen]
      by_cases h0 : l'.length = 0
      · simp [h0]
      · have hb : (l'.length == 0) = false := by simp [h0]
        rw [hb]
        simp only [Bool.false_eq_true, if_false]
        simp only [ltCount_append, ltCount_tagSpans, hlen]

theorem ltCount_renderExamples_congr {e e' : Option Examples}
    (h : examplesShape e = examplesShape e') :
    ltCount (renderExamples e) = ltCount (renderExamples e') := by
  cases e with
  | none => cases e' with
    | none => rfl
    | some ex' => simp [examplesShape] at h
  | some ex =>
    cases e' with
    | none => simp [examplesShape] at h
    | some ex' =>
      have hpair : (truthyOptStr ex.english, truthyOptStr ex.khmer) =
          (truthyOptStr ex'.english, truthyOptStr ex'.khmer) := by
        simpa [examplesShape] using h
      have h1 : truthyOptStr ex.english = truthyOptStr ex'.english :=
        congrArg Prod.fst hpair
      have h2 : truthyOptStr ex.khmer = truthyOptStr ex'.khmer :=
        congrArg Prod.snd hpair
      simp only [renderExamples]
      rw [h1, h2]
      by_cases hb1 : truthyOptStr ex'.english <;> by_cases hb2 : truthyOptStr ex'.khmer <;>
        simp [hb1, hb2, ltCount_append, ltCount_escapeHtml]

theorem ltCount_renderReference_congr {r r' : Option String}
    (h : refShape r = refShape r') :
    ltCount (renderReference r) = ltCount (renderReference r') := by
  cases r with
  | none => cases r' with
    | none => rfl
    | some s' => simp [refShape] at h
  | some s =>
    cases r' with
    | none => simp [refShape] at h
    | some s' =>
      have hb : (s == "" || s == "#") = (s' == "" || s' == "#") := by
        simpa [refShape] using h
      simp only [renderReference]
      rw [hb]
      by_cases hc : (s' == "" || s' == "#") = true
      · simp [hc]
      · have hc' : (s' == "" || s' == "#") = false := by
          cases hval : (s' == "" || s' == "#") with
          | true => exact absurd hval hc
          | false => rfl
        rw [hc']
        simp only [Bool.false_eq_true, if_false]
        simp only [ltCount_append, ltCount_escapeHtml]

/-! ## Claim C1 -/

/-- C1: for every term collection and query state, `filterWords` returns
exactly the subset of terms satisfying both the category predicate and the
text predicate, as an order-preserving subsequence of the input (no
reordering, no duplication, no extra elements). -/
theorem filterWords_characterization (lex : List Word) (search filt : String) :
    (filterWords lex search filt).Sublist lex ∧
    filterWords lex search filt =
      lex.filter (fun w => categoryMatchesSpec w filt && textMatchesSpec w search) ∧
    ∀ w ∈ filterWords lex search filt,
      categoryMatchesSpec w filt = true ∧ textMatchesSpec w search = true := by
  refine ⟨?_, filterWords_eq_filter_spec lex search filt, ?_⟩
  · unfold filterWords
    exact List.filter_sublist lex
  · intro w hw
    rw [filterWords_eq_filter_spec] at hw
    have hp := (List.mem_filter.mp hw).2
    simpa using hp

/-- Witness for C1 at the spec's scenario data. -/
theorem filterWords_characterization_witness :
    categoryMatchesSpec cacheWord "storage" = true ∧
      textMatchesSpec cacheWord "" = true :=
  (filterWords_characterization [cacheWord, schedulerWord] "" "storage").2.2
    cacheWord (by decide)

/-! ## Claim C2 -/

/-- C2: for a non-empty search text the source's text predicate holds iff at
least one of the five spec field checks succeeds; for the empty search text
every term passes, and the filter result is the category-only filtered set. -/
theorem searchMatches_five_checks :
    (∀ (w : Word) (s : String), s ≠ "" →
      searchMatches w s =
        (engNameCheck w s || khmerNameCheck w s || descriptionCheck w s ||
         tagsCheck w s || examplesCheck w s)) ∧
    (∀ w : Word, textMatchesSpec w "" = true) ∧
    (∀ (lex : List Word) (filt : String),
      filterWords lex "" filt = lex.filter fun w => categoryMatchesSpec w filt) := by
  refine ⟨?_, ?_, ?_⟩
  · intro w s hs
    have h := searchTest_eq_textMatchesSpec w s
    have hbeq : (s == "") = false := by simp [hs]
    rw [hbeq, Bool.false_or] at h
    rw [h]
    unfold textMatchesSpec
    rw [hbeq, Bool.false_or]
  · intro w
    unfold textMatchesSpec
    rfl
  · intro lex filt
    rw [filterWords_eq_filter_spec]
    apply List.filter_congr
    intro w _
    have ht : textMatchesSpec w "" = true := rfl
    rw [ht, Bool.and_true]

/-- Witness for C2: the spec's case-sensitivity example, searching `"API"`
against a term with English name `"api gateway"`. -/
theorem searchMatches_five_checks_witness :
    searchMatches { english := "api gateway", khmer := "ខ", category := "net" } "API" =
      (engNameCheck { english := "api gateway", khmer := "ខ", category := "net" } "API" ||
       khmerNameCheck { english := "api gateway", khmer := "ខ", category := "net" } "API" ||
       descriptionCheck { english := "api gateway", khmer := "ខ", category := "net" } "API" ||
       tagsCheck { english := "api gateway", khmer := "ខ", category := "net" } "API" ||
       examplesCheck { english := "api gateway", khmer := "ខ", category := "net" } "API") :=
  searchMatches_five_checks.1
    { english := "api gateway", khmer := "ខ", category := "net" } "API" (by decide)

/-! ## Claim C3 -/

/-- C3: the category predicate holds iff the selection is the sentinel
`"all"` or the term's category key equals the selection exactly; hence every
result under a non-`"all"` selection carries that category key, and a
selection matching no term (and not `"all"`) yields the empty result. -/
theorem filterWords_category_exact :
    (∀ (w : Word) (filt : String),
      categoryMatchesSpec w filt = true ↔ (filt = "all" ∨ w.category = filt)) ∧
    (∀ (lex : List Word) (search filt : String),
      ∀ w ∈ filterWords lex search filt, filt = "all" ∨ w.category = filt) ∧
    (∀ (lex : List Word) (search filt : String), filt ≠ "all" →
      (∀ w ∈ lex, w.category ≠ filt) → filterWords lex search filt = []) := by
  have hiff : ∀ (w : Word) (filt : String),
      categoryMatchesSpec w filt = true ↔ (filt = "all" ∨ w.category = filt) := by
    intro w filt
    unfold categoryMatchesSpec
    simp [Bool.or_eq_true]
  refine ⟨hiff, ?_, ?_⟩
  · intro lex search filt w hw
    rw [filterWords_eq_filter_spec] at hw
    have hp := (List.mem_filter.mp hw).2
    have hcat : categoryMatchesSpec w filt = true := by
      cases hb : categoryMatchesSpec w filt with
      | true => rfl
      | false => rw [hb, Bool.false_and] at hp; exact absurd hp (by simp)
    exact (hiff w filt).mp hcat
  · intro lex search filt hall hcat
    rw [filterWords_eq_filter_spec]
    apply List.filter_eq_nil_iff.mpr
    intro a ha
    have h1 : (filt == "all") = false := by simp [hall]
    have h2 : (a.category == filt) = false := by simp [hcat a ha]
    simp [categoryMatchesSpec, h1, h2]

/-- Witness for C3: an unknown category key matches nothing. -/
theorem filterWords_category_exact_witness :
    filterWords [cacheWord, schedulerWord] "" "blockchain" = [] :=
  filterWords_category_exact.2.2 [cacheWord, schedulerWord] "" "blockchain"
    (by decide) (by decide)

/-! ## Claim C6 -/

/-- A term whose `dateAdded` field carries markup. -/
def injWord : Word :=
  { english := "Cache", khmer := "ឃ", category := "storage",
    dateAdded := some "<img src=x>" }

set_option maxRecDepth 100000 in
/-- C6 counterexample: the claim says all user-facing text fields, including
`dateAdded`, are escaped; but the card built for `injWord` contains the raw
`<img src=x>` markup coming from its `dateAdded` field. -/
theorem createWordCard_unescaped_dateAdded :
    jsIncludes (createWordCard [] injWord) "<img src=x>" = true := by decide

/-- C6 (amended): the renderer escapes the English name, Khmer name,
description, tags, examples and reference — `escapeHtml` output never
contains `<`, `>`, `"` or `'`, and varying any of those fields (keeping the
branch shape of the optional ones) cannot change the number of `<`
characters in the card markup.  The `dateAdded` field and the category
display name are interpolated unescaped (hence the category/dateAdded
agreement hypotheses; dropping them is refuted by the counterexample). -/
theorem createWordCard_escapes :
    (∀ s : String, ∀ c ∈ (escapeHtml s).data,
      ¬(c = '<' ∨ c = '>' ∨ c = '"' ∨ c = quoteChar)) ∧
    (∀ (cats : List (String × Category)) (w w' : Word),
      w.category = w'.category → w.dateAdded = w'.dateAdded →
      tagsShape w.tags = tagsShape w'.tags →
      examplesShape w.examples = examplesShape w'.examples →
      refShape w.reference = refShape w'.reference →
      ltCount (createWordCard cats w) = ltCount (createWordCard cats w')) := by
  refine ⟨escapeHtml_safe, ?_⟩
  intro cats w w' hcat hdate htags hex href
  unfold createWordCard
  rw [hcat, hdate]
  simp only [ltCount_append, ltCount_escapeHtml,
    ltCount_renderExamples_congr hex, ltCount_renderTags_congr htags,
    ltCount_renderReference_congr href]

/-- Witness for C6 (amended): markup in the English name cannot change the
`<` count of the card. -/
theorem createWordCard_escapes_witness :
    ltCount (createWordCard [] { english := "a<b onload=x>", khmer := "ក", category := "storage" }) =
      ltCount (createWordCard [] { english := "", khmer := "ខ", category := "storage" }) :=
  createWordCard_escapes.2 []
    { english := "a<b onload=x>", khmer := "ក", category := "storage" }
    { english := "", khmer := "ខ", category := "storage" }
    rfl rfl rfl rfl rfl

/-! ## Claim C7 -/

/-- C7: `renderWords` sets the results-count label to the match count
followed by `" terms found"`, and takes the no-results branch exactly when
the match count is zero, the card branch exactly otherwise — never both. -/
theorem renderWords_count_and_branch (lex : List Word)
    (cats : List (String × Category)) (search filt : String) :
    (renderWords lex cats search filt).resultsCount =
      toString (filterWords lex search filt).length ++ " terms found" ∧
    ((renderWords lex cats search filt).grid = GridContent.noResults renderNoResults ↔
      (filterWords lex search filt).length = 0) ∧
    ((renderWords lex cats search filt).grid =
        GridContent.cards (renderWordCards cats (filterWords lex search filt)) ↔
      (filterWords lex search filt).length ≠ 0) := by
  unfold renderWords
  by_cases h : (filterWords lex search filt).length = 0
  · simp [h]
  · simp [h]

/-! ## Claim C8 -/

/-- C8: the query operation is a pure function of its inputs — repeated calls
with unchanged inputs return equal results, equal inputs give equal outputs,
and (as in the source) the result does not depend on the category mapping at
all, so no call can observe or cause mutation of it. -/
theorem query_pure (T : List Word) (C : List (String × Category)) (Q : QueryState) :
    query T C Q = query T C Q ∧
    (∀ C' : List (String × Category), query T C' Q = query T C Q) ∧
    (∀ (T' : List Word) (Q' : QueryState), T' = T → Q' = Q →
      query T' C Q' = query T C Q) :=
  ⟨rfl, fun _ => rfl, fun T' Q' h1 h2 => by rw [h1, h2]⟩

/-- Witness for C8 at the scenario data. -/
theorem query_pure_witness :
    query [cacheWord, schedulerWord] [] ⟨"sched", "all"⟩ =
      query [cacheWord, schedulerWord] [] ⟨"sched", "all"⟩ :=
  (query_pure [cacheWord, schedulerWord] [] ⟨"sched", "all"⟩).2.2
    [cacheWord, schedulerWord] ⟨"sched", "all"⟩ rfl rfl

/-! ## Dynamically-typed JSON values

The fetched documents, the stored `websiteInfo`, and malformed optional
term fields are arbitrary JSON values; `JVal` models them (numbers as `Int`;
float niceties such as NaN play no role in any claim). -/

/-- A JavaScript value as it can occur in the loaded JSON data. -/
inductive JVal where
  | undefined
  | null
  | bool (b : Bool)
  | num (n : Int)
  | str (s : String)
  | arr (elems : List JVal)
  | obj (fields : List (String × JVal))

/-- JavaScript truthiness. -/
def jsTruthy : JVal → Bool
  | .undefined => false
  | .null => false
  | .bool b => b
  | .num n => n != 0
  | .str s => s != ""
  | .arr _ => true
  | .obj _ => true

/-- JavaScript `a || b` (value-returning or). -/
def jsOr (a b : JVal) : JVal := if jsTruthy a then a else b

/-- Property read on a value known not to be nullish: objects look up the
key, any other value yields `undefined`. -/
def getProp (v : JVal) (key : String) : JVal :=
  match v with
  | .obj fields =>
    match fields.lookup key with
    | some x => x
    | none => .undefined
  | _ => .undefined

/-- Plain member access `v.key`: throws a TypeError on nullish `v`. -/
def getMember (v : JVal) (key : String) : Except String JVal :=
  match v with
  | .undefined => .error "TypeError: cannot read properties of undefined"
  | .null => .error "TypeError: cannot read properties of null"
  | _ => .ok (getProp v key)

/-- Optional chaining `v?.key`: nullish `v` short-circuits to `undefined`. -/
def optMember (v : JVal) (key : String) : JVal :=
  match v with
  | .undefined => .undefined
  | .null => .undefined
  | _ => getProp v key

/-! ## Loader (app.js lines 81-141)

A fetch of one resource is summarized by its observable outcome: network
failure, exceeding the 10-second timeout (the `AbortController` fires), or a
response with an HTTP status and a body that either parses as JSON
(`some v`) or makes `.json()` reject (`none`). -/

/-- Outcome of one `fetch` with its watchdog timer. -/
inductive FetchOutcome where
  | netError
  | timedOut
  | response (status : Nat) (body : Option JVal)

/-- Embedding of `fetchWithTimeout` (app.js lines 124-141): network errors
and timeouts propagate as thrown errors; a non-ok status (`response.ok` is
`200 ≤ status ≤ 299`) throws `HTTP error!`; otherwise the response (with its
not-yet-parsed body) is returned. -/
def fetchWithTimeout (o : FetchOutcome) : Except String (Nat × Option JVal) :=
  match o with
  | .netError => .error "TypeError: fetch failed"
  | .timedOut => .error "AbortError: the operation was aborted"
  | .response status body =>
    if 200 ≤ status ∧ status ≤ 299 then .ok (status, body)
    else .error ("HTTP error! status: " ++ toString status)

/-- The UI state `loadData` ends in: the error display, or the main content
with the stored `lexiconData`, `categoriesData`, `websiteInfo`. -/
inductive LoadOutcome where
  | errorState
  | mainContent (lexiconData categoriesData websiteInfo : JVal)

/-- Embedding of `loadData` (app.js lines 81-121): all three fetches must
succeed and all three bodies must parse (`Promise.all` plus the `catch`
collapsing any failure into the error state); then
`lexiconJson.terms || []`, `categoriesJson.categories || {}` and
`websiteJson || {}` are stored and the main content is shown. -/
def loadData (o1 o2 o3 : FetchOutcome) : LoadOutcome :=
  match fetchWithTimeout o1, fetchWithTimeout o2, fetchWithTimeout o3 with
  | .ok (_, some lexiconJson), .ok (_, some categoriesJson), .ok (_, some websiteJson) =>
    match getMember lexiconJson "terms", getMember categoriesJson "categories" with
    | .ok t, .ok c =>
      .mainContent (jsOr t (.arr [])) (jsOr c (.obj [])) (jsOr websiteJson (.obj []))
    | _, _ => .errorState
  | _, _, _ => .errorState

/-- A resource load attempt fails: network error, timeout, non-success
status, or a body that does not parse as JSON. -/
def resourceFails : FetchOutcome → Bool
  | .netError => true
  | .timedOut => true
  | .response status body =>
    if 200 ≤ status ∧ status ≤ 299 then body.isNone else true

theorem resourceFails_no_ok {o : FetchOutcome} (h : resourceFails o = true) :
    ∀ (s : Nat) (j : JVal), fetchWithTimeout o ≠ .ok (s, some j) := by
  intro s j hok
  cases o with
  | netError => simp [fetchWithTimeout] at hok
  | timedOut => simp [fetchWithTimeout] at hok
  | response status body =>
    simp only [fetchWithTimeout] at hok
    simp only [resourceFails] at h
    by_cases hst : 200 ≤ status ∧ status ≤ 299
    · rw [if_pos hst] at hok
      rw [if_pos hst] at h
      cases body with
      | none => simp at hok
      | some b => simp [Option.isNone] at h
    · rw [if_neg hst] at hok
      simp at hok

/-! ## Claim C5 -/

/-- C5: the load is all-or-nothing — if any of the three resources fails to
fetch, times out, arrives with a non-success HTTP status, or fails to parse
as JSON, `loadData` ends in the error-display state (which carries no data),
never in the main-content state. -/
theorem loadData_all_or_nothing (o1 o2 o3 : FetchOutcome)
    (h : resourceFails o1 = true ∨ resourceFails o2 = true ∨ resourceFails o3 = true) :
    loadData o1 o2 o3 = LoadOutcome.errorState := by
  unfold loadData
  split
  · rename_i h1 h2 h3
    exfalso
    rcases h with hf | hf | hf
    · exact resourceFails_no_ok hf _ _ h1
    · exact resourceFails_no_ok hf _ _ h2
    · exact resourceFails_no_ok hf _ _ h3
  · rfl

/-- Witness for C5: one resource answering 404 sinks the whole load. -/
theorem loadData_all_or_nothing_witness :
    loadData (.response 404 (some (.obj []))) (.response 200 (some (.obj [])))
      (.response 200 (some (.obj []))) = LoadOutcome.errorState :=
  loadData_all_or_nothing _ _ _ (Or.inl (by decide))

/-! ## Claim C10 -/

/-- C10: a body that parses as valid JSON but lacks the expected top-level
key is not an error: the `|| []` / `|| {}` fallbacks make the load succeed
with an empty term collection and empty category mapping, and rendering the
empty collection shows `0 terms found` (the no-results branch). -/
theorem loadData_lenient (f1 f2 : List (String × JVal)) (j3 : JVal)
    (s1 s2 s3 : Nat)
    (h1 : 200 ≤ s1 ∧ s1 ≤ 299) (h2 : 200 ≤ s2 ∧ s2 ≤ 299) (h3 : 200 ≤ s3 ∧ s3 ≤ 299)
    (hterms : f1.lookup "terms" = none)
    (hcats : f2.lookup "categories" = none) :
    loadData (.response s1 (some (.obj f1))) (.response s2 (some (.obj f2)))
        (.response s3 (some j3)) =
      LoadOutcome.mainContent (.arr []) (.obj []) (jsOr j3 (.obj [])) ∧
    ∀ (cats : List (String × Category)) (search filt : String),
      (renderWords [] cats search filt).resultsCount = "0 terms found" ∧
      (renderWords [] cats search filt).grid = GridContent.noResults renderNoResults := by
  constructor
  · simp only [loadData, fetchWithTimeout, if_pos h1, if_pos h2, if_pos h3]
    simp [getMember, getProp, hterms, hcats, jsOr, jsTruthy]
  · intro cats search filt
    have hfil : filterWords ([] : List Word) search filt = [] := rfl
    constructor
    · show toString (filterWords ([] : List Word) search filt).length ++
        " terms found" = "0 terms found"
      rw [hfil]
      decide
    · show (if (filterWords ([] : List Word) search filt).length == 0
          then GridContent.noResults renderNoResults
          else GridContent.cards
            (renderWordCards cats (filterWords [] search filt))) =
        GridContent.noResults renderNoResults
      rw [hfil]
      rfl

/-- Witness for C10 at concrete documents missing both keys. -/
theorem loadData_lenient_witness :
    loadData (.response 200 (some (.obj [("foo", JVal.num 1)])))
        (.response 200 (some (.obj []))) (.response 200 (some JVal.null)) =
      LoadOutcome.mainContent (.arr []) (.obj []) (jsOr JVal.null (.obj [])) :=
  (loadData_lenient [("foo", JVal.num 1)] [] JVal.null 200 200 200
    (by decide) (by decide) (by decide) rfl rfl).1

/-! ## Export (app.js lines 407-440) and application state -/

/-- The process-wide application state held by the globals. -/
structure AppState where
  lexiconData : List Word
  categoriesData : List (String × Category)
  websiteInfo : JVal
  currentFilter : String
  currentSearch : String

/-- The structure serialized by `exportJSON`: envelope metadata plus the
loaded data. -/
structure ExportDoc where
  exportDate : String
  totalTerms : Nat
  version : JVal
  exportedBy : String
  terms : List Word
  categories : List (String × Category)

/-- Embedding of `exportJSON()` (app.js lines 407-440).  `now` is the
current-time reading (`new Date().toISOString()`); `exportFails` is true
when serialization or the DOM download throws, in which case the `catch`
only alerts.  Either way the globals are untouched, which the explicit
state-passing returns. -/
def exportJSON (st : AppState) (now : String) (exportFails : Bool) :
    Option ExportDoc × AppState :=
  let dataToExport : ExportDoc :=
    { exportDate := now,
      totalTerms := st.lexiconData.length,
      version := jsOr (optMember (getProp st.websiteInfo "project") "version")
        (.str "1.0.0"),
      exportedBy := "Domra Tech Lexicon",
      terms := st.lexiconData,
      categories := st.categoriesData }
  if exportFails then (none, st) else (some dataToExport, st)

/-! ## Claim C9 -/

/-- C9: the export document is exactly `{ metadata, terms, categories }`
with `totalTerms` the length of the in-memory term collection and
`terms`/`categories` the loaded data unmodified, and exporting (successful
or failed) leaves the application state unchanged. -/
theorem exportJSON_spec (st : AppState) (now : String) (b : Bool) :
    (exportJSON st now b).2 = st ∧
    ∀ doc : ExportDoc, (exportJSON st now b).1 = some doc →
      doc.totalTerms = st.lexiconData.length ∧
      doc.totalTerms = doc.terms.length ∧
      doc.terms = st.lexiconData ∧
      doc.categories = st.categoriesData ∧
      doc.exportDate = now ∧
      doc.exportedBy = "Domra Tech Lexicon" := by
  cases b with
  | true =>
    refine ⟨rfl, ?_⟩
    intro doc hdoc
    exact absurd hdoc (by simp [exportJSON])
  | false =>
    refine ⟨rfl, ?_⟩
    intro doc hdoc
    have heq := Option.some.inj hdoc
    rw [← heq]
    exact ⟨rfl, rfl, rfl, rfl, rfl, rfl⟩

/-- A concrete application state for the export witness. -/
def st0 : AppState :=
  { lexiconData := [cacheWord], categoriesData := [], websiteInfo := .obj [],
    currentFilter := "all", currentSearch := "" }

/-- The document `exportJSON` produces from `st0`. -/
def exportedDoc0 : ExportDoc :=
  { exportDate := "2025-01-01T00:00:00.000Z", totalTerms := 1,
    version := JVal.str "1.0.0", exportedBy := "Domra Tech Lexicon",
    terms := [cacheWord], categories := [] }

/-- Witness for C9 at `st0`. -/
theorem exportJSON_spec_witness :
    exportedDoc0.totalTerms = st0.lexiconData.length ∧
    exportedDoc0.totalTerms = exportedDoc0.terms.length ∧
    exportedDoc0.terms = st0.lexiconData ∧
    exportedDoc0.categories = st0.categoriesData ∧
    exportedDoc0.exportDate = "2025-01-01T00:00:00.000Z" ∧
    exportedDoc0.exportedBy = "Domra Tech Lexicon" :=
  (exportJSON_spec st0 "2025-01-01T00:00:00.000Z" false).2 exportedDoc0 rfl

/-! ## Dynamic search semantics (claim C4)

C4 quantifies over terms whose optional fields may be malformed, so here the
optional fields are raw `JVal`s and the JavaScript evaluation of
`searchMatches` is modelled in `Except String`, throwing exactly where the
source would throw a `TypeError` (calling `.toLowerCase`/`.includes`/`.some`
on a value that lacks it).  The `||` chain short-circuits left to right. -/

/-- A term as the filter actually receives it, before any validation: the
mandatory names are strings (C4's hypothesis); the optional fields are raw
JSON values, `undefined` when absent. -/
structure WordJ where
  english : String
  khmer : String
  category : String
  description : JVal := .undefined
  tags : JVal := .undefined
  examples : JVal := .undefined

/-- `word.description && word.description.toLowerCase().includes(searchLower)`:
falsy values are skipped; a truthy non-string throws. -/
def descCheckJ (v : JVal) (searchLower : String) : Except String Bool :=
  if jsTruthy v then
    match v with
    | .str d => .ok (jsIncludes (jsToLower d) searchLower)
    | _ => .error "TypeError: word.description.toLowerCase is not a function"
  else .ok false

/-- `tags.some(tag => tag.toLowerCase().includes(searchLower))`, left to
right with short-circuit; a non-string tag throws when reached. -/
def tagsSomeJ : List JVal → String → Except String Bool
  | [], _ => .ok false
  | t :: ts, searchLower =>
    match t with
    | .str s =>
      if jsIncludes (jsToLower s) searchLower then .ok true
      else tagsSomeJ ts searchLower
    | _ => .error "TypeError: tag.toLowerCase is not a function"

/-- `word.tags && word.tags.some(...)`: falsy values are skipped; a truthy
non-array has no `.some` and throws. -/
def tagsCheckJ (v : JVal) (searchLower : String) : Except String Bool :=
  if jsTruthy v then
    match v with
    | .arr l => tagsSomeJ l searchLower
    | _ => .error "TypeError: word.tags.some is not a function"
  else .ok false

/-- `examples.english?.toLowerCase().includes(searchLower)`: nullish
short-circuits to a falsy `undefined`; a non-nullish non-string throws. -/
def exEnglishCheckJ (v : JVal) (searchLower : String) : Except String Bool :=
  match v with
  | .undefined => .ok false
  | .null => .ok false
  | .str e => .ok (jsIncludes (jsToLower e) searchLower)
  | _ => .error "TypeError: word.examples.english.toLowerCase is not a function"

/-- `examples.khmer?.includes(searchTerm)`: nullish short-circuits; strings
do a substring search, arrays an element search; other values throw. -/
def exKhmerCheckJ (v : JVal) (searchTerm : String) : Except String Bool :=
  match v with
  | .undefined => .ok false
  | .null => .ok false
  | .str k => .ok (jsIncludes k searchTerm)
  | .arr l =>
    .ok (l.any fun x =>
      match x with
      | .str s => s == searchTerm
      | _ => false)
  | _ => .error "TypeError: word.examples.khmer.includes is not a function"

/-- `word.examples && (<english check> || <khmer check>)`. -/
def examplesCheckJ (v : JVal) (searchTerm searchLower : String) :
    Except String Bool :=
  if jsTruthy v then
    match exEnglishCheckJ (getProp v "english") searchLower with
    | .error e => .error e
    | .ok true => .ok true
    | .ok false => exKhmerCheckJ (getProp v "khmer") searchTerm
  else .ok false

/-- Embedding of `searchMatches(word, searchTerm)` over dynamically-typed
optional fields, with JavaScript's left-to-right short-circuit of `||`. -/
def jsSearchMatches (w : WordJ) (searchTerm : String) : Except String Bool :=
  let searchLower := jsToLower searchTerm
  if jsIncludes (jsToLower w.english) searchLower then .ok true
  else if jsIncludes w.khmer searchTerm then .ok true
  else
    match descCheckJ w.description searchLower with
    | .error e => .error e
    | .ok true => .ok true
    | .ok false =>
      match tagsCheckJ w.tags searchLower with
      | .error e => .error e
      | .ok true => .ok true
      | .ok false => examplesCheckJ w.examples searchTerm searchLower

/-- Embedding of `filterWords()` over dynamically-typed terms: the callback
runs left to right over the collection, and an exception raised by
`searchMatches` aborts the whole filter. -/
def jsFilterWords : List WordJ → String → String → Except String (List WordJ)
  | [], _, _ => .ok []
  | w :: ws, currentSearch, currentFilter =>
    match (if currentSearch == "" then .ok true
           else jsSearchMatches w currentSearch : Except String Bool) with
    | .error e => .error e
    | .ok matchesSearch =>
      match jsFilterWords ws currentSearch currentFilter with
      | .error e => .error e
      | .ok rest =>
        if matchesSearch && (currentFilter == "all" || w.category == currentFilter)
        then .ok (w :: rest)
        else .ok rest

/-- The description field is absent, falsy, or a string. -/
def descOkJ (v : JVal) : Bool :=
  !jsTruthy v ||
    (match v with
     | .str _ => true
     | _ => false)

/-- The tags field is absent, falsy, or an array of strings. -/
def tagsOkJ (v : JVal) : Bool :=
  !jsTruthy v ||
    (match v with
     | .arr l =>
       l.all fun t =>
         match t with
         | .str _ => true
         | _ => false
     | _ => false)

/-- The examples field is absent, falsy, or has nullish-or-string `english`
and nullish-or-string-or-array `khmer` members. -/
def examplesOkJ (v : JVal) : Bool :=
  !jsTruthy v ||
    ((match getProp v "english" with
      | .undefined => true
      | .null => true
      | .str _ => true
      | _ => false) &&
     (match getProp v "khmer" with
      | .undefined => true
      | .null => true
      | .str _ => true
      | .arr _ => true
      | _ => false))

/-- All optional fields of the term have tolerated shapes. -/
def wellFormedJ (w : WordJ) : Bool :=
  descOkJ w.description && tagsOkJ w.tags && examplesOkJ w.examples

theorem descCheckJ_isOk {v : JVal} (h : descOkJ v = true) (sl : String) :
    (descCheckJ v sl).isOk = true := by
  unfold descCheckJ
  by_cases ht : jsTruthy v = true
  · rw [if_pos ht]
    simp only [descOkJ, ht, Bool.not_true, Bool.false_or] at h
    cases v with
    | str d => rfl
    | undefined => exact Bool.noConfusion h
    | null => exact Bool.noConfusion h
    | bool b => exact Bool.noConfusion h
    | num n => exact Bool.noConfusion h
    | arr l => exact Bool.noConfusion h
    | obj f => exact Bool.noConfusion h
  · rw [if_neg ht]
    rfl

theorem tagsSomeJ_isOk (l : List JVal) (sl : String)
    (h : (l.all fun t =>
      match t with
      | JVal.str _ => true
      | _ => false) = true) :
    (tagsSomeJ l sl).isOk = true := by
  induction l with
  | nil => rfl
  | cons t ts ih =>
    rw [List.all_cons, Bool.and_eq_true] at h
    obtain ⟨ht, hts⟩ := h
    cases t with
    | str s =>
      simp only [tagsSomeJ]
      by_cases hin : jsIncludes (jsToLower s) sl = true
      · rw [if_pos hin]
        rfl
      · rw [if_neg hin]
        exact ih hts
    | undefined => simp at ht
    | null => simp at ht
    | bool b => simp at ht
    | num n => simp at ht
    | arr es => simp at ht
    | obj fs => simp at ht

theorem tagsCheckJ_isOk {v : JVal} (h : tagsOkJ v = true) (sl : String) :
    (tagsCheckJ v sl).isOk = true := by
  unfold tagsCheckJ
  by_cases ht : jsTruthy v = true
  · rw [if_pos ht]
    simp only [tagsOkJ, ht, Bool.not_true, Bool.false_or] at h
    cases v with
    | arr l => exact tagsSomeJ_isOk l sl h
    | undefined => simp at h
    | null => simp at h
    | bool b => simp at h
    | num n => simp at h
    | str s => simp at h
    | obj fs => simp at h
  · rw [if_neg ht]
    rfl

theorem exEnglishCheckJ_isOk {v : JVal}
    (h : (match v with
      | JVal.undefined => true
      | JVal.null => true
      | JVal.str _ => true
      | _ => false) = true) (sl : String) :
    (exEnglishCheckJ v sl).isOk = true := by
  cases v with
  | undefined => rfl
  | null => rfl
  | str e => rfl
  | bool b => exact Bool.noConfusion h
  | num n => exact Bool.noConfusion h
  | arr l => exact Bool.noConfusion h
  | obj f => exact Bool.noConfusion h

theorem exKhmerCheckJ_isOk {v : JVal}
    (h : (match v with
      | JVal.undefined => true
      | JVal.null => true
      | JVal.str _ => true
      | JVal.arr _ => true
      | _ => false) = true) (st : String) :
    (exKhmerCheckJ v st).isOk = true := by
  cases v with
  | undefined => rfl
  | null => rfl
  | str k => rfl
  | arr l => rfl
  | bool b => exact Bool.noConfusion h
  | num n => exact Bool.noConfusion h
  | obj f => exact Bool.noConfusion h

theorem examplesCheckJ_isOk {v : JVal} (h : examplesOkJ v = true)
    (st sl : String) : (examplesCheckJ v st sl).isOk = true := by
  unfold examplesCheckJ
  by_cases ht : jsTruthy v = true
  · rw [if_pos ht]
    simp only [examplesOkJ, ht, Bool.not_true, Bool.false_or,
      Bool.and_eq_true] at h
    obtain ⟨he, hk⟩ := h
    cases hres : exEnglishCheckJ (getProp v "english") sl with
    | error e =>
      have hok := exEnglishCheckJ_isOk he sl
      rw [hres] at hok
      exact Bool.noConfusion hok
    | ok b =>
      cases b with
      | true => rfl
      | false => exact exKhmerCheckJ_isOk hk st
  · rw [if_neg ht]
    rfl

theorem jsSearchMatches_isOk (w : WordJ) (s : String)
    (h : wellFormedJ w = true) : (jsSearchMatches w s).isOk = true := by
  obtain ⟨⟨hd, htg⟩, hex⟩ : (descOkJ w.description = true ∧ tagsOkJ w.tags = true) ∧
      examplesOkJ w.examples = true := by
    unfold wellFormedJ at h
    simp only [Bool.and_eq_true] at h
    exact ⟨h.1, h.2⟩
  unfold jsSearchMatches
  by_cases h1 : jsIncludes (jsToLower w.english) (jsToLower s) = true
  · rw [if_pos h1]
    rfl
  · rw [if_neg h1]
    by_cases h2 : jsIncludes w.khmer s = true
    · rw [if_pos h2]
      rfl
    · rw [if_neg h2]
      cases hres : descCheckJ w.description (jsToLower s) with
      | error e =>
        have hok := descCheckJ_isOk hd (jsToLower s)
        rw [hres] at hok
        exact Bool.noConfusion hok
      | ok b =>
        cases b with
        | true => rfl
        | false =>
          cases hres2 : tagsCheckJ w.tags (jsToLower s) with
          | error e =>
            have hok := tagsCheckJ_isOk htg (jsToLower s)
            rw [hres2] at hok
            exact Bool.noConfusion hok
          | ok b2 =>
            cases b2 with
            | true => rfl
            | false => exact examplesCheckJ_isOk hex s (jsToLower s)

/-! ## Claim C4 -/

/-- A term with present mandatory string names but a malformed (numeric)
description. -/
def badWordJ : WordJ :=
  { english := "alpha", khmer := "ក", category := "c",
    description := .num 7 }

/-- C4 counterexample: filtering `badWordJ` with a non-empty search raises a
TypeError instead of treating the malformed description as non-matching. -/
theorem jsFilterWords_raises :
    jsFilterWords [badWordJ] "z" "all" =
      .error "TypeError: word.description.toLowerCase is not a function" := rfl

/-- C4 (amended): when every term's optional fields are absent, falsy, or of
the documented types (string description, string-array tags, nullish-or-
string example members), filtering never raises, for every search text and
category selection; but an optional field present with an unexpected type
does raise a TypeError (see the counterexample). -/
theorem jsFilterWords_total_on_wellformed (lex : List WordJ)
    (search filt : String) (h : ∀ w ∈ lex, wellFormedJ w = true) :
    (jsFilterWords lex search filt).isOk = true := by
  induction lex with
  | nil => rfl
  | cons w ws ih =>
    have hw : wellFormedJ w = true := h w (List.mem_cons_self w ws)
    have hws : ∀ x ∈ ws, wellFormedJ x = true :=
      fun x hx => h x (List.mem_cons_of_mem w hx)
    simp only [jsFilterWords]
    have hsearch : (if search == "" then Except.ok true
        else jsSearchMatches w search : Except String Bool).isOk = true := by
      by_cases hs : (search == "") = true
      · rw [if_pos hs]
        rfl
      · rw [if_neg (by simp_all)]
        exact jsSearchMatches_isOk w search hw
    cases hres : (if search == "" then Except.ok true
        else jsSearchMatches w search : Except String Bool) with
    | error e =>
      rw [hres] at hsearch
      exact Bool.noConfusion hsearch
    | ok b =>
      cases hrest : jsFilterWords ws search filt with
      | error e =>
        have hok := ih hws
        rw [hrest] at hok
        exact Bool.noConfusion hok
      | ok rest =>
        show (if (b && (filt == "all" || w.category == filt)) = true
            then (Except.ok (w :: rest) : Except String (List WordJ))
            else Except.ok rest).isOk = true
        by_cases hkeep : (b && (filt == "all" || w.category == filt)) = true
        · rw [if_pos hkeep]
          rfl
        · rw [if_neg hkeep]
          rfl

/-- A term exercising every tolerated optional-field shape. -/
def goodWordJ : WordJ :=
  { english := "beta", khmer := "ខ", category := "c",
    description := .null, tags := .arr [.str "web"],
    examples := .obj [("english", .str "Use beta"), ("khmer", .null)] }

/-- Witness for C4 (amended) at a concrete well-formed collection. -/
theorem jsFilterWords_total_witness :
    (jsFilterWords [goodWordJ] "zeta" "all").isOk = true :=
  jsFilterWords_total_on_wellformed [goodWordJ] "zeta" "all" (by
    intro w hw
    simp only [List.mem_singleton] at hw
    subst hw
    rfl)

end DomraTech
